import Mathlib

/-!
Shallow embedding of the uni-task-manager service layer (the hexagonal
version: `services` package with `CourseService` and `TaskService`, backed
by the sqlite repositories in `internal/adapters/secondary/sqlite`).

Timestamps are modelled as `Nat`; `0` is Go's zero `time.Time`
(`IsZero`), and `a.Before b` is `a < b`. Go `int`/`int64` fields are
modelled as `Int`. The sqlite store is modelled as lists of rows plus the
AUTOINCREMENT counters; the repository operations mirror the SQL
statements (in particular, `UPDATE` does not touch the `created_at`
column). The service operations thread the store state explicitly and
return the Go `error` as `Except Err`.
-/

namespace UniTaskManager

/-- Model of Go `time.Time`: `0` is the zero time. -/
abbrev Time := Nat

/-- `models.Task` (internal/domain/models/task.go). `Status` is a string
newtype in Go, modelled as `String`. -/
structure Task where
  id : Int
  title : String
  description : String
  dueDate : Time
  priority : Int
  status : String
  courseId : Int
  createdAt : Time
  updatedAt : Time
deriving Repr, DecidableEq

/-- `models.Course` (internal/domain/models/task.go). -/
structure Course where
  id : Int
  name : String
  professor : String
  createdAt : Time
  updatedAt : Time
deriving Repr, DecidableEq

/-- `models.TaskStatusPending`. -/
def taskStatusPending : String := "pending"

/-- `models.TaskStatusInProgress`. -/
def taskStatusInProgress : String := "in_progress"

/-- `models.TaskStatusCompleted`. -/
def taskStatusCompleted : String := "completed"

/-- Go `error` values the services and repositories can return: the five
domain errors declared in the `services` package, plus generic storage
errors from the gateway. -/
inductive Err where
  | errInvalidTaskPriority
  | errInvalidDueDate
  | errTaskNotFound
  | errCourseNotFound
  | errEmptyName
  | storage (msg : String)
deriving Repr, DecidableEq

/-- Domain errors, as opposed to storage errors (spec §7 taxonomy). -/
def Err.isDomain : Err → Bool
  | .storage _ => false
  | _ => true

/-- The sqlite database state: the two tables plus AUTOINCREMENT counters. -/
structure Store where
  tasks : List Task
  courses : List Course
  nextTaskId : Int
  nextCourseId : Int
deriving Repr, DecidableEq

/-! ### Repository operations (sqlite adapters) -/

/-- Ordering used by `TaskRepository.GetAll`: `ORDER BY due_date ASC`. -/
def taskDueLe (a b : Task) : Prop := a.dueDate ≤ b.dueDate

instance : DecidableRel taskDueLe := fun a b =>
  inferInstanceAs (Decidable (a.dueDate ≤ b.dueDate))

instance : IsTotal Task taskDueLe := ⟨fun a b => Nat.le_total a.dueDate b.dueDate⟩

instance : IsTrans Task taskDueLe := ⟨fun _ _ _ h1 h2 => Nat.le_trans h1 h2⟩

/-- Ordering used by `CourseRepository.GetAll`: `ORDER BY name ASC`. -/
def courseNameLe (a b : Course) : Prop := a.name ≤ b.name

instance : DecidableRel courseNameLe := fun a b =>
  inferInstanceAs (Decidable (a.name ≤ b.name))

instance : IsTotal Course courseNameLe := ⟨fun a b => le_total a.name b.name⟩

instance : IsTrans Course courseNameLe := ⟨fun _ _ _ h1 h2 => le_trans h1 h2⟩

/-- `TaskRepository.GetAll`: `SELECT ... FROM tasks ORDER BY due_date ASC`. -/
def taskRepoGetAll (st : Store) : List Task :=
  List.insertionSort taskDueLe st.tasks

/-- `TaskRepository.GetByID`: returns `nil` (here `none`) when no row matches. -/
def taskRepoGetById (st : Store) (id : Int) : Option Task :=
  st.tasks.find? (fun row => row.id == id)

/-- `TaskRepository.Create`: `INSERT INTO tasks ...` and report the
AUTOINCREMENT id back on the entity. -/
def taskRepoCreate (st : Store) (task : Task) : Task × Store :=
  let assigned := { task with id := st.nextTaskId }
  (assigned,
   { st with tasks := st.tasks ++ [assigned], nextTaskId := st.nextTaskId + 1 })

/-- `TaskRepository.Update`: `UPDATE tasks SET title, description, due_date,
priority, status, course_id, updated_at WHERE id = ?` — every column except
`created_at` (and `id`). -/
def taskRepoUpdate (st : Store) (task : Task) : Store :=
  { st with tasks := st.tasks.map (fun row =>
      if row.id == task.id then { task with createdAt := row.createdAt } else row) }

/-- `TaskRepository.Delete`: `DELETE FROM tasks WHERE id = ?`. -/
def taskRepoDelete (st : Store) (id : Int) : Store :=
  { st with tasks := st.tasks.filter (fun row => row.id != id) }

/-- `CourseRepository.GetAll`: `SELECT ... FROM courses ORDER BY name ASC`. -/
def courseRepoGetAll (st : Store) : List Course :=
  List.insertionSort courseNameLe st.courses

/-- `CourseRepository.GetByID`. -/
def courseRepoGetById (st : Store) (id : Int) : Option Course :=
  st.courses.find? (fun row => row.id == id)

/-- `CourseRepository.Create`. -/
def courseRepoCreate (st : Store) (course : Course) : Course × Store :=
  let assigned := { course with id := st.nextCourseId }
  (assigned,
   { st with courses := st.courses ++ [assigned], nextCourseId := st.nextCourseId + 1 })

/-- `CourseRepository.Update`: `UPDATE courses SET name, professor,
updated_at WHERE id = ?` — `created_at` is not in the SET clause. -/
def courseRepoUpdate (st : Store) (course : Course) : Store :=
  { st with courses := st.courses.map (fun row =>
      if row.id == course.id then { course with createdAt := row.createdAt } else row) }

/-- `CourseRepository.Delete`. -/
def courseRepoDelete (st : Store) (id : Int) : Store :=
  { st with courses := st.courses.filter (fun row => row.id != id) }

/-! ### Task service -/

/-- `TaskService.validateTask`: priority must be in [1,5]; a non-zero due
date must not be before `time.Now()`. -/
def validateTask (task : Task) (now : Time) : Option Err :=
  if task.priority < 1 ∨ task.priority > 5 then
    some .errInvalidTaskPriority
  else if task.dueDate ≠ 0 ∧ task.dueDate < now then
    some .errInvalidDueDate
  else
    none

/-- The service reaches `courseRepo.GetByID` through the `output.CourseRepository`
port; the lookup can fail with a storage error or report absence as `none`. -/
abbrev CourseLookup := Store → Int → Except Err (Option Course)

/-- The concrete sqlite course lookup: never errors in this model, reports
absence as `none`. -/
def realCourseLookup : CourseLookup := fun st id => .ok (courseRepoGetById st id)

/-- The `if task.CourseID != 0 { _, err := courseRepo.GetByID(...) }` block
shared by `CreateTask` and `UpdateTask`: only a lookup error is surfaced;
an absent course is discarded. -/
def checkCourseRef (lookup : CourseLookup) (st : Store) (courseId : Int) :
    Except Err Unit :=
  if courseId ≠ 0 then
    match lookup st courseId with
    | .error e => .error e
    | .ok _ => .ok ()
  else
    .ok ()

/-- `TaskService.CreateTask`: validate, check the course reference, stamp
`created_at`/`updated_at` with `now`, default empty status to pending,
then `taskRepo.Create`. Returns the Go error and the resulting store. -/
def CreateTask (lookup : CourseLookup) (now : Time) (task : Task) (st : Store) :
    Except Err Task × Store :=
  match validateTask task now with
  | some e => (.error e, st)
  | none =>
    match checkCourseRef lookup st task.courseId with
    | .error e => (.error e, st)
    | .ok () =>
      let stamped := { task with
        createdAt := now
        updatedAt := now
        status := if task.status = "" then taskStatusPending else task.status }
      let created := taskRepoCreate st stamped
      (.ok created.1, created.2)

/-- The row `CreateTask` persists: the stamped task after the repository
assigns the AUTOINCREMENT id. -/
def createdRow (now : Time) (task : Task) (st : Store) : Task :=
  { task with
      id := st.nextTaskId
      createdAt := now
      updatedAt := now
      status := if task.status = "" then taskStatusPending else task.status }

/-- `TaskService.UpdateTask`: validate, load the existing task (fail with
`ErrTaskNotFound` when absent), check the course reference, keep the
existing `created_at`, stamp a fresh `updated_at`, then `taskRepo.Update`. -/
def UpdateTask (lookup : CourseLookup) (now : Time) (task : Task) (st : Store) :
    Except Err Task × Store :=
  match validateTask task now with
  | some e => (.error e, st)
  | none =>
    match taskRepoGetById st task.id with
    | none => (.error .errTaskNotFound, st)
    | some existing =>
      match checkCourseRef lookup st task.courseId with
      | .error e => (.error e, st)
      | .ok () =>
        let stamped := { task with createdAt := existing.createdAt, updatedAt := now }
        (.ok stamped, taskRepoUpdate st stamped)

/-- `TaskService.GetTask`. -/
def GetTask (st : Store) (id : Int) : Except Err Task :=
  match taskRepoGetById st id with
  | none => .error .errTaskNotFound
  | some t => .ok t

/-- `TaskService.GetAllTasks`: delegates to the repository. -/
def GetAllTasks (st : Store) : List Task := taskRepoGetAll st

/-- `TaskService.DeleteTask`: existence check, then delete. -/
def DeleteTask (id : Int) (st : Store) : Except Err Unit × Store :=
  match taskRepoGetById st id with
  | none => (.error .errTaskNotFound, st)
  | some _ => (.ok (), taskRepoDelete st id)

/-! ### Course service -/

/-- `CourseService.validateCourse`: only the name is checked. -/
def validateCourse (course : Course) : Option Err :=
  if course.name = "" then some .errEmptyName else none

/-- `CourseService.CreateCourse`. -/
def CreateCourse (now : Time) (course : Course) (st : Store) :
    Except Err Course × Store :=
  match validateCourse course with
  | some e => (.error e, st)
  | none =>
    let stamped := { course with createdAt := now, updatedAt := now }
    let created := courseRepoCreate st stamped
    (.ok created.1, created.2)

/-- `CourseService.UpdateCourse`. -/
def UpdateCourse (now : Time) (course : Course) (st : Store) :
    Except Err Course × Store :=
  match validateCourse course with
  | some e => (.error e, st)
  | none =>
    match courseRepoGetById st course.id with
    | none => (.error .errCourseNotFound, st)
    | some existing =>
      let stamped := { course with createdAt := existing.createdAt, updatedAt := now }
      (.ok stamped, courseRepoUpdate st stamped)

/-- `CourseService.GetCourse`. -/
def GetCourse (st : Store) (id : Int) : Except Err Course :=
  match courseRepoGetById st id with
  | none => .error .errCourseNotFound
  | some c => .ok c

/-- `CourseService.GetAllCourses`. -/
def GetAllCourses (st : Store) : List Course := courseRepoGetAll st

/-- `CourseService.DeleteCourse`. -/
def DeleteCourse (id : Int) (st : Store) : Except Err Unit × Store :=
  match courseRepoGetById st id with
  | none => (.error .errCourseNotFound, st)
  | some _ => (.ok (), courseRepoDelete st id)

/-! ### Concrete sample data for witnesses -/

/-- The empty database, as after `Initialize`. -/
def emptyStore : Store := { tasks := [], courses := [], nextTaskId := 1, nextCourseId := 1 }

/-- A task whose priority 0 fails validation. -/
def badPriorityTask : Task :=
  { id := 0, title := "hw", description := "", dueDate := 0, priority := 0,
    status := "", courseId := 0, createdAt := 0, updatedAt := 0 }

/-- A valid task (priority 3, no due date, no course). -/
def validTask : Task :=
  { id := 0, title := "hw", description := "", dueDate := 0, priority := 3,
    status := "", courseId := 0, createdAt := 0, updatedAt := 0 }

/-- A valid-priority task whose due date is the instant 1. -/
def taskDueAtNow : Task :=
  { id := 0, title := "hw", description := "", dueDate := 1, priority := 3,
    status := "", courseId := 0, createdAt := 0, updatedAt := 0 }

/-- The row `CreateTask` persists for `taskDueAtNow` at time 1. -/
def taskDueAtNowRow : Task :=
  { id := 1, title := "hw", description := "", dueDate := 1, priority := 3,
    status := taskStatusPending, courseId := 0, createdAt := 1, updatedAt := 1 }

/-- A task persisted in the sample store. -/
def storedTask : Task :=
  { id := 1, title := "hw", description := "", dueDate := 0, priority := 3,
    status := "pending", courseId := 0, createdAt := 10, updatedAt := 10 }

/-- A store holding exactly `storedTask`. -/
def oneTaskStore : Store :=
  { tasks := [storedTask], courses := [], nextTaskId := 2, nextCourseId := 1 }

/-- An update payload for task 1 carrying a bogus `created_at` of 999. -/
def updatePayload : Task :=
  { id := 1, title := "hw2", description := "", dueDate := 0, priority := 4,
    status := "completed", courseId := 0, createdAt := 999, updatedAt := 0 }

/-- A task with absent id 42 and invalid priority 0. -/
def badPriorityAbsent : Task :=
  { id := 42, title := "hw", description := "", dueDate := 0, priority := 0,
    status := "", courseId := 0, createdAt := 0, updatedAt := 0 }

/-- A valid update payload for the absent id 42. -/
def validTask42 : Task :=
  { id := 42, title := "hw", description := "", dueDate := 0, priority := 3,
    status := "pending", courseId := 0, createdAt := 0, updatedAt := 0 }

/-- A course lookup that fails with a storage error. -/
def failingLookup : CourseLookup := fun _ _ => .error (Err.storage "disk failure")

/-- A course lookup that reports the course absent, without an error. -/
def absentLookup : CourseLookup := fun _ _ => .ok none

/-- A valid task referencing course 7. -/
def taskWithCourse : Task :=
  { id := 0, title := "hw", description := "", dueDate := 0, priority := 3,
    status := "", courseId := 7, createdAt := 0, updatedAt := 0 }

/-- A valid task carrying the status string "bogus", outside the
enumeration. -/
def bogusStatusTask : Task :=
  { id := 0, title := "hw", description := "", dueDate := 0, priority := 3,
    status := "bogus", courseId := 0, createdAt := 0, updatedAt := 0 }

/-! ### Helper lemmas -/

theorem validateTask_some_invalidPriority_iff (task : Task) (now : Time) :
    validateTask task now = some Err.errInvalidTaskPriority ↔
      task.priority < 1 ∨ task.priority > 5 := by
  unfold validateTask
  split
  · simp_all
  · split <;> simp_all

theorem validateTask_some_invalidDueDate_iff (task : Task) (now : Time) :
    validateTask task now = some Err.errInvalidDueDate ↔
      (¬(task.priority < 1 ∨ task.priority > 5) ∧ task.dueDate ≠ 0 ∧ task.dueDate < now) := by
  unfold validateTask
  split
  · simp_all
  · split <;> simp_all

theorem validateTask_none_iff (task : Task) (now : Time) :
    validateTask task now = none ↔
      (¬(task.priority < 1 ∨ task.priority > 5) ∧ ¬(task.dueDate ≠ 0 ∧ task.dueDate < now)) := by
  unfold validateTask
  split
  · simp_all
  · split <;> simp_all

theorem checkCourseRef_real (st : Store) (cid : Int) :
    checkCourseRef realCourseLookup st cid = Except.ok () := by
  unfold checkCourseRef realCourseLookup
  split <;> rfl

/-! ### Claim theorems -/

/-- Claim C1: `CreateTask` and `UpdateTask` (same field validation) fail
with the invalid-priority error — leaving the store exactly as before, so
no record is persisted — if and only if the task's priority lies outside
the closed range [1,5]. -/
theorem createTask_invalidPriority_iff (now : Time) (task : Task) (st : Store) :
    (CreateTask realCourseLookup now task st = (.error .errInvalidTaskPriority, st) ↔
      (task.priority < 1 ∨ task.priority > 5)) ∧
    (UpdateTask realCourseLookup now task st = (.error .errInvalidTaskPriority, st) ↔
      (task.priority < 1 ∨ task.priority > 5)) := by
  by_cases hp : task.priority < 1 ∨ task.priority > 5
  · have hv : validateTask task now = some Err.errInvalidTaskPriority :=
      (validateTask_some_invalidPriority_iff task now).mpr hp
    constructor
    · simp [CreateTask, hv, hp]
    · simp [UpdateTask, hv, hp]
  · constructor
    · cases hv : validateTask task now with
      | none =>
        simp [CreateTask, hv, checkCourseRef_real, hp]
      | some e =>
        have he : e = Err.errInvalidDueDate := by
          unfold validateTask at hv
          rw [if_neg hp] at hv
          split at hv <;> simp_all
        subst he
        simp [CreateTask, hv, hp]
    · cases hv : validateTask task now with
      | none =>
        cases hg : taskRepoGetById st task.id with
        | none => simp [UpdateTask, hv, hg, hp]
        | some existing => simp [UpdateTask, hv, hg, checkCourseRef_real, hp]
      | some e =>
        have he : e = Err.errInvalidDueDate := by
          unfold validateTask at hv
          rw [if_neg hp] at hv
          split at hv <;> simp_all
        subst he
        simp [UpdateTask, hv, hp]

/-- Claim C2: every mutating service operation performs all validation and
existence checks before any mutating storage call, so whenever it returns
an error the resulting store equals the store before the call. -/
theorem mutating_ops_no_write_on_error :
    (∀ now task st e, (CreateTask realCourseLookup now task st).1 = .error e →
        (CreateTask realCourseLookup now task st).2 = st) ∧
    (∀ now task st e, (UpdateTask realCourseLookup now task st).1 = .error e →
        (UpdateTask realCourseLookup now task st).2 = st) ∧
    (∀ id st e, (DeleteTask id st).1 = .error e → (DeleteTask id st).2 = st) ∧
    (∀ now course st e, (CreateCourse now course st).1 = .error e →
        (CreateCourse now course st).2 = st) ∧
    (∀ now course st e, (UpdateCourse now course st).1 = .error e →
        (UpdateCourse now course st).2 = st) ∧
    (∀ id st e, (DeleteCourse id st).1 = .error e → (DeleteCourse id st).2 = st) := by
  refine ⟨?_, ?_, ?_, ?_, ?_, ?_⟩
  · intro now task st e h
    cases hv : validateTask task now with
    | none => simp [CreateTask, hv, checkCourseRef_real] at h
    | some e' => simp [CreateTask, hv]
  · intro now task st e h
    cases hv : validateTask task now with
    | none =>
      cases hg : taskRepoGetById st task.id with
      | none => simp [UpdateTask, hv, hg]
      | some existing => simp [UpdateTask, hv, hg, checkCourseRef_real] at h
    | some e' => simp [UpdateTask, hv]
  · intro id st e h
    cases hg : taskRepoGetById st id with
    | none => simp [DeleteTask, hg]
    | some t => simp [DeleteTask, hg] at h
  · intro now course st e h
    cases hv : validateCourse course with
    | none => simp [CreateCourse, hv] at h
    | some e' => simp [CreateCourse, hv]
  · intro now course st e h
    cases hv : validateCourse course with
    | none =>
      cases hg : courseRepoGetById st course.id with
      | none => simp [UpdateCourse, hv, hg]
      | some existing => simp [UpdateCourse, hv, hg] at h
    | some e' => simp [UpdateCourse, hv]
  · intro id st e h
    cases hg : courseRepoGetById st id with
    | none => simp [DeleteCourse, hg]
    | some c => simp [DeleteCourse, hg] at h

/-- Witness for claim C2 at a concrete input: creating a task with
priority 0 on the empty store fails and leaves the store empty. -/
theorem mutating_ops_no_write_on_error_witness :
    (CreateTask realCourseLookup 5 badPriorityTask emptyStore).2 = emptyStore :=
  mutating_ops_no_write_on_error.1 5 badPriorityTask emptyStore
    Err.errInvalidTaskPriority (by rfl)

/-- Claim C3 counterexample: at current time 1, a non-zero due date equal
to 1 is not strictly after the current time, yet `CreateTask` succeeds
instead of failing with the invalid-due-date error (the code only rejects
a due date strictly before `time.Now()`). -/
theorem createTask_dueDate_eq_now_counterexample :
    taskDueAtNow.dueDate ≠ 0 ∧
    ¬ ((1 : Time) < taskDueAtNow.dueDate) ∧
    (CreateTask realCourseLookup 1 taskDueAtNow emptyStore).1 ≠
      Except.error Err.errInvalidDueDate := by
  refine ⟨by decide, by decide, ?_⟩
  have hok : (CreateTask realCourseLookup 1 taskDueAtNow emptyStore).1 =
      Except.ok taskDueAtNowRow := rfl
  rw [hok]
  intro h
  exact Except.noConfusion h

theorem validateTask_cases (task : Task) (now : Time) :
    validateTask task now = none ∨
    validateTask task now = some Err.errInvalidTaskPriority ∨
    validateTask task now = some Err.errInvalidDueDate := by
  unfold validateTask
  split
  · simp
  · split <;> simp

theorem createTask_invalidDueDate_iff_validate (now : Time) (task : Task) (st : Store) :
    CreateTask realCourseLookup now task st = (.error .errInvalidDueDate, st) ↔
      validateTask task now = some Err.errInvalidDueDate := by
  constructor
  · intro h
    rcases validateTask_cases task now with hv | hv | hv
    · simp [CreateTask, hv, checkCourseRef_real] at h
    · simp [CreateTask, hv] at h
    · exact hv
  · intro hv
    simp [CreateTask, hv]

theorem updateTask_invalidDueDate_iff_validate (now : Time) (task : Task) (st : Store) :
    UpdateTask realCourseLookup now task st = (.error .errInvalidDueDate, st) ↔
      validateTask task now = some Err.errInvalidDueDate := by
  constructor
  · intro h
    rcases validateTask_cases task now with hv | hv | hv
    · cases hg : taskRepoGetById st task.id with
      | none => simp [UpdateTask, hv, hg] at h
      | some existing => simp [UpdateTask, hv, hg, checkCourseRef_real] at h
    · simp [UpdateTask, hv] at h
    · exact hv
  · intro hv
    simp [UpdateTask, hv]

/-- Claim C3 amended: for a task with non-zero due date, `CreateTask` and
`UpdateTask` fail with the invalid-due-date error exactly when, in
addition to the priority being in range, the due date is strictly BEFORE
the current time of the call; a due date equal to the current time is
accepted, and a zero due date is exempt. -/
theorem invalidDueDate_iff_strictly_before (now : Time) (task : Task) (st : Store) :
    (CreateTask realCourseLookup now task st = (.error .errInvalidDueDate, st) ↔
      (¬(task.priority < 1 ∨ task.priority > 5) ∧ task.dueDate ≠ 0 ∧ task.dueDate < now)) ∧
    (UpdateTask realCourseLookup now task st = (.error .errInvalidDueDate, st) ↔
      (¬(task.priority < 1 ∨ task.priority > 5) ∧ task.dueDate ≠ 0 ∧ task.dueDate < now)) :=
  ⟨(createTask_invalidDueDate_iff_validate now task st).trans
     (validateTask_some_invalidDueDate_iff task now),
   (updateTask_invalidDueDate_iff_validate now task st).trans
     (validateTask_some_invalidDueDate_iff task now)⟩

theorem getById_after_update (st : Store) (u : Task) :
    taskRepoGetById (taskRepoUpdate st u) u.id =
      (taskRepoGetById st u.id).map
        (fun row => { u with createdAt := row.createdAt }) := by
  show List.find? (fun row => row.id == u.id)
      (st.tasks.map
        (fun row => if row.id == u.id then { u with createdAt := row.createdAt } else row)) =
    (st.tasks.find? (fun row => row.id == u.id)).map
      (fun row => { u with createdAt := row.createdAt })
  rw [List.find?_map]
  have hpf : ((fun row : Task => row.id == u.id) ∘
      (fun row : Task =>
        if row.id == u.id then { u with createdAt := row.createdAt } else row))
      = (fun row : Task => row.id == u.id) := by
    funext row
    by_cases h : row.id == u.id
    · simp [Function.comp, h]
    · simp [Function.comp, h]
  rw [hpf]
  cases hg : st.tasks.find? (fun row => row.id == u.id) with
  | none => rfl
  | some row =>
    have hrow : row.id = u.id := by simpa using List.find?_some hg
    simp [hrow]

/-- Claim C4: a successful `UpdateTask` keeps `created_at` exactly equal
to the stored task's `created_at` — whatever `created_at` the caller
supplied — and stamps `updated_at` with the fresh current time, which is
at least the previous `updated_at` whenever the clock is monotone. The
re-persisted row equals the returned task. -/
theorem updateTask_preserves_createdAt (now : Time) (task existing : Task) (st : Store)
    (hg : taskRepoGetById st task.id = some existing)
    (hv : validateTask task now = none)
    (hmono : existing.updatedAt ≤ now) :
    ∃ stamped : Task,
      (UpdateTask realCourseLookup now task st).1 = .ok stamped ∧
      stamped.createdAt = existing.createdAt ∧
      stamped.updatedAt = now ∧
      existing.updatedAt ≤ stamped.updatedAt ∧
      taskRepoGetById (UpdateTask realCourseLookup now task st).2 task.id = some stamped := by
  refine ⟨{ task with createdAt := existing.createdAt, updatedAt := now },
    ?_, rfl, rfl, hmono, ?_⟩
  · simp [UpdateTask, hv, hg, checkCourseRef_real]
  · have hst : (UpdateTask realCourseLookup now task st).2 =
        taskRepoUpdate st { task with createdAt := existing.createdAt, updatedAt := now } := by
      simp [UpdateTask, hv, hg, checkCourseRef_real]
    rw [hst]
    have hid : ({ task with createdAt := existing.createdAt, updatedAt := now } : Task).id
        = task.id := rfl
    have h2 := getById_after_update st
      { task with createdAt := existing.createdAt, updatedAt := now }
    rw [hid] at h2
    rw [h2, hg]
    rfl

/-- Witness for claim C4 at a concrete input: updating task 1 at time 20
with a payload whose `created_at` is 999 keeps the stored `created_at` 10. -/
theorem updateTask_preserves_createdAt_witness :
    ∃ stamped : Task,
      (UpdateTask realCourseLookup 20 updatePayload oneTaskStore).1 = .ok stamped ∧
      stamped.createdAt = storedTask.createdAt ∧
      stamped.updatedAt = 20 ∧
      storedTask.updatedAt ≤ stamped.updatedAt ∧
      taskRepoGetById (UpdateTask realCourseLookup 20 updatePayload oneTaskStore).2
        updatePayload.id = some stamped :=
  updateTask_preserves_createdAt 20 updatePayload storedTask oneTaskStore
    (by rfl) (by rfl) (by decide)

/-- Claim C5 counterexample: id 42 has no persisted task in the empty
store, yet `UpdateTask` on a payload with that id and priority 0 fails with
the invalid-priority validation error, not the task-not-found error
(validation runs before the existence check). -/
theorem updateTask_absent_id_counterexample :
    badPriorityAbsent.id = 42 ∧
    taskRepoGetById emptyStore 42 = none ∧
    (UpdateTask realCourseLookup 1 badPriorityAbsent emptyStore).1 =
      Except.error Err.errInvalidTaskPriority ∧
    Err.errInvalidTaskPriority ≠ Err.errTaskNotFound :=
  ⟨rfl, rfl, rfl, by decide⟩

/-- Claim C5 amended: on an id with no persisted task, `GetTask` and
`DeleteTask` fail with the task-not-found error and the store is
unchanged; `UpdateTask` does so too provided its payload passes field
validation (otherwise the validation error is returned first — still with
no state change). -/
theorem notFound_ops (st : Store) (id : Int)
    (habs : taskRepoGetById st id = none) :
    GetTask st id = .error .errTaskNotFound ∧
    DeleteTask id st = (.error .errTaskNotFound, st) ∧
    (∀ now task, task.id = id → validateTask task now = none →
      UpdateTask realCourseLookup now task st = (.error .errTaskNotFound, st)) := by
  refine ⟨?_, ?_, ?_⟩
  · simp [GetTask, habs]
  · simp [DeleteTask, habs]
  · intro now task hid hv
    simp [UpdateTask, hv, hid, habs]

/-- Witness for the amended claim C5 at a concrete input. -/
theorem notFound_ops_witness :
    GetTask emptyStore 42 = .error .errTaskNotFound ∧
    UpdateTask realCourseLookup 1 validTask42 emptyStore =
      (.error .errTaskNotFound, emptyStore) :=
  ⟨(notFound_ops emptyStore 42 rfl).1,
   (notFound_ops emptyStore 42 rfl).2.2 1 validTask42 rfl rfl⟩

/-- Claim C6: for a task with non-zero course id that passes field
validation, `CreateTask` propagates exactly any error returned by the
course lookup on the storage gateway; and when the lookup reports any
answer without an error — including an absent course — no course-not-found
domain error is produced and the creation proceeds and succeeds. -/
theorem createTask_course_lookup (lookup : CourseLookup) (now : Time)
    (task : Task) (st : Store)
    (hv : validateTask task now = none) (hc : task.courseId ≠ 0) :
    (∀ e, lookup st task.courseId = .error e →
        CreateTask lookup now task st = (.error e, st)) ∧
    (∀ res, lookup st task.courseId = .ok res →
        ∃ created,
          CreateTask lookup now task st =
            (.ok created,
             { st with tasks := st.tasks ++ [created],
                       nextTaskId := st.nextTaskId + 1 })) := by
  constructor
  · intro e he
    simp [CreateTask, hv, checkCourseRef, hc, he]
  · intro res hres
    refine ⟨createdRow now task st, ?_⟩
    simp [CreateTask, hv, checkCourseRef, hc, hres, taskRepoCreate, createdRow]

/-- Witness for claim C6 at concrete inputs: a failing lookup is
propagated verbatim; an absent-course lookup still lets creation succeed. -/
theorem createTask_course_lookup_witness :
    CreateTask failingLookup 1 taskWithCourse emptyStore =
      (.error (Err.storage "disk failure"), emptyStore) ∧
    (∃ created,
      CreateTask absentLookup 1 taskWithCourse emptyStore =
        (.ok created,
         { emptyStore with tasks := emptyStore.tasks ++ [created],
                           nextTaskId := emptyStore.nextTaskId + 1 })) :=
  ⟨(createTask_course_lookup failingLookup 1 taskWithCourse emptyStore
      (by rfl) (by decide)).1 (Err.storage "disk failure") rfl,
   (createTask_course_lookup absentLookup 1 taskWithCourse emptyStore
      (by rfl) (by decide)).2 none rfl⟩

/-- Claim C7: a task that passes validation is persisted by `CreateTask`
as a fresh row appended to the store, whose status is `pending` when the
incoming status was the empty string and the incoming status unchanged
otherwise. -/
theorem createTask_status_defaulting (now : Time) (task : Task) (st : Store)
    (hv : validateTask task now = none) :
    ∃ created,
      CreateTask realCourseLookup now task st =
        (.ok created,
         { st with tasks := st.tasks ++ [created],
                   nextTaskId := st.nextTaskId + 1 }) ∧
      created.status = (if task.status = "" then taskStatusPending else task.status) := by
  refine ⟨createdRow now task st, ?_, rfl⟩
  simp [CreateTask, hv, checkCourseRef_real, taskRepoCreate, createdRow]

/-- Witness for claim C7 at a concrete input: creating `validTask`, whose
status is the empty string, persists status `pending`. -/
theorem createTask_status_defaulting_witness :
    ∃ created,
      CreateTask realCourseLookup 1 validTask emptyStore =
        (.ok created,
         { emptyStore with tasks := emptyStore.tasks ++ [created],
                           nextTaskId := emptyStore.nextTaskId + 1 }) ∧
      created.status =
        (if validTask.status = "" then taskStatusPending else validTask.status) :=
  createTask_status_defaulting 1 validTask emptyStore (by rfl)

/-- Claim C8: `CreateCourse` fails exactly when the course name is the
empty string — and then with the empty-name error — and `UpdateCourse`
fails with the empty-name error exactly when the name is empty; no other
course field takes part in validation. -/
theorem course_emptyName_iff (now : Time) (course : Course) (st : Store) :
    (∀ e, (CreateCourse now course st).1 = .error e ↔
        (course.name = "" ∧ e = .errEmptyName)) ∧
    ((UpdateCourse now course st).1 = .error .errEmptyName ↔ course.name = "") := by
  by_cases hn : course.name = ""
  · have hv : validateCourse course = some Err.errEmptyName := by
      simp [validateCourse, hn]
    constructor
    · intro e
      simp [CreateCourse, hv, hn, eq_comm]
    · simp [UpdateCourse, hv, hn]
  · have hv : validateCourse course = none := by
      simp [validateCourse, hn]
    constructor
    · intro e
      simp [CreateCourse, hv, hn, courseRepoCreate]
    · cases hg : courseRepoGetById st course.id with
      | none => simp [UpdateCourse, hv, hg, hn]
      | some existing => simp [UpdateCourse, hv, hg, hn]

/-- Claim C9: `GetAllTasks` returns exactly the persisted tasks as a
sequence sorted by ascending due date, and `GetAllCourses` exactly the
persisted courses sorted by ascending name. -/
theorem getAll_sorted (st : Store) :
    List.Sorted taskDueLe (GetAllTasks st) ∧
    List.Perm (GetAllTasks st) st.tasks ∧
    List.Sorted courseNameLe (GetAllCourses st) ∧
    List.Perm (GetAllCourses st) st.courses :=
  ⟨List.sorted_insertionSort taskDueLe st.tasks,
   List.perm_insertionSort taskDueLe st.tasks,
   List.sorted_insertionSort courseNameLe st.courses,
   List.perm_insertionSort courseNameLe st.courses⟩

/-- Claim C10: the service never validates the status against the
enumeration: validation ignores the status field entirely, and any
non-empty status string — also one outside pending/in_progress/completed —
is accepted by `CreateTask` and `UpdateTask` and persisted unchanged. -/
theorem status_not_validated :
    (∀ task now s, validateTask { task with status := s } now = validateTask task now) ∧
    (∀ now task st, validateTask task now = none → task.status ≠ "" →
      ∃ created,
        CreateTask realCourseLookup now task st =
          (.ok created,
           { st with tasks := st.tasks ++ [created],
                     nextTaskId := st.nextTaskId + 1 }) ∧
        created.status = task.status) ∧
    (∀ now task st existing, validateTask task now = none →
      taskRepoGetById st task.id = some existing →
      ∃ stamped,
        (UpdateTask realCourseLookup now task st).1 = .ok stamped ∧
        stamped.status = task.status ∧
        taskRepoGetById (UpdateTask realCourseLookup now task st).2 task.id =
          some stamped) := by
  refine ⟨fun task now s => rfl, ?_, ?_⟩
  · intro now task st hv hs
    refine ⟨createdRow now task st, ?_, ?_⟩
    · simp [CreateTask, hv, checkCourseRef_real, taskRepoCreate, createdRow]
    · simp [createdRow, hs]
  · intro now task st existing hv hg
    refine ⟨{ task with createdAt := existing.createdAt, updatedAt := now },
      ?_, rfl, ?_⟩
    · simp [UpdateTask, hv, hg, checkCourseRef_real]
    · have hst : (UpdateTask realCourseLookup now task st).2 =
          taskRepoUpdate st { task with createdAt := existing.createdAt, updatedAt := now } := by
        simp [UpdateTask, hv, hg, checkCourseRef_real]
      rw [hst]
      have hid : ({ task with createdAt := existing.createdAt, updatedAt := now } : Task).id
          = task.id := rfl
      have h2 := getById_after_update st
        { task with createdAt := existing.createdAt, updatedAt := now }
      rw [hid] at h2
      rw [h2, hg]
      rfl

/-- Witness for claim C10 at a concrete input: status "bogus" is accepted
and persisted unchanged by `CreateTask`. -/
theorem status_not_validated_witness :
    ∃ created,
      CreateTask realCourseLookup 1 bogusStatusTask emptyStore =
        (.ok created,
         { emptyStore with tasks := emptyStore.tasks ++ [created],
                           nextTaskId := emptyStore.nextTaskId + 1 }) ∧
      created.status = bogusStatusTask.status :=
  status_not_validated.2.1 1 bogusStatusTask emptyStore (by rfl) (by decide)

end UniTaskManager
